import Mathlib

/-
Shallow embedding of the krapht pipeline core (package pipeline and its
flow/sink subpackages): events, the non-blocking event send, the flow
combinators Buffer, Passthrough, Filter, Map, FilterMap, and the
EventCollector lifecycle. Channels are modelled denotationally: a stage
run to upstream exhaustion is described by the ordered list of items it
writes to its output channel, whether it closed that channel, and the
ordered list of events it emits on the event channel.
-/

namespace Krapht

/-- GoError models a non-nil Go error value by the string its Error method
returns. A nilable Go error is an Option GoError, none standing for nil. -/
structure GoError where
  msg : String
deriving DecidableEq, Repr

/-- LogLevel ordinal for LevelError: the const block starts at iota + 3. -/
def LevelError : Nat := 0 + 3

/-- LogLevel ordinal for LevelWarn (iota = 1). -/
def LevelWarn : Nat := 1 + 3

/-- LogLevel ordinal for LevelInfo: iota = 3 because the source skips the
Notice slot (iota = 2) with a blank identifier. -/
def LevelInfo : Nat := 3 + 3

/-- LogLevel ordinal for LevelDebug (iota = 4). -/
def LevelDebug : Nat := 4 + 3

/-- ErrorEvent from the pipeline package: wraps a descriptive message, an
underlying cause (a nilable Go error) and the temporary flag. -/
structure ErrorEvent where
  msg : String
  err : Option GoError
  temporary : Bool
deriving DecidableEq, Repr

/-- LogEvent from the pipeline package: source label, level ordinal, message. -/
structure LogEvent where
  source : String
  level : Nat
  msg : String
deriving DecidableEq, Repr

/-- Event models the pipeline.Event interface, closed over the variants the
embedded core constructs. -/
inductive Event
| log (e : LogEvent)
| error (e : ErrorEvent)
deriving DecidableEq, Repr

/-- NewErrorEvent returns the ErrorEvent as a pipeline.Event. The cause
parameter is a nilable Go error: none (nil) is accepted unchecked. -/
def NewErrorEvent (msg : String) (err : Option GoError) (temporary : Bool) : Event :=
  Event.error { msg := msg, err := err, temporary := temporary }

/-- ErrorEvent.string renders the event as msg ++ ": " ++ err.Error().
The call e.err.Error() dereferences the wrapped error, so a nil (none)
cause panics: the none result models that panic. -/
def ErrorEvent.string (e : ErrorEvent) : Option String :=
  match e.err with
  | none => none
  | some g => some (e.msg ++ ": " ++ g.msg)

/-- ErrorEvent.goError implements the Go error interface by delegating to
ErrorEvent.string, hence panics on a nil cause in the same way. -/
def ErrorEvent.goError (e : ErrorEvent) : Option String :=
  e.string

/-- ErrorEvent.unwrap returns the underlying cause. -/
def ErrorEvent.unwrap (e : ErrorEvent) : Option GoError :=
  e.err

/-- The ErrorEvent that Logger.Load constructs when the formatted string is
empty (sink/logger.go): message "formatted data is empty", nil cause,
temporary true. -/
def loggerEmptyErrorEvent : ErrorEvent :=
  { msg := "formatted data is empty", err := none, temporary := true }

/-- Chan models the observable state of a Go channel: its capacity, the
items currently buffered in FIFO order, whether some receiver is blocked
waiting on it, and the items already handed over to receivers in order. -/
structure Chan (α : Type) where
  capacity : Nat
  buffer : List α
  recvReady : Bool
  received : List α
deriving DecidableEq, Repr

/-- Items of the channel system equal to x, whether still buffered or
already taken by a receiver. -/
def Chan.count [DecidableEq α] (c : Chan α) (x : α) : Nat :=
  c.buffer.count x + c.received.count x

/-- chanTrySend models a select-with-default send: succeed immediately if
the buffer has free space or a receiver is waiting, otherwise fail without
blocking. The Bool result tells whether the item was delivered. -/
def chanTrySend {α : Type} (c : Chan α) (x : α) : Chan α × Bool :=
  if c.buffer.length < c.capacity then
    ({ c with buffer := c.buffer ++ [x] }, true)
  else if c.recvReady then
    ({ c with received := c.received ++ [x], recvReady := false }, true)
  else
    (c, false)

/-- chanBlockingSend models a plain Go send statement: the item is
delivered if the buffer has space or a receiver is waiting; otherwise the
sender blocks, modelled as none (the send cannot complete). -/
def chanBlockingSend {α : Type} (c : Chan α) (x : α) : Option (Chan α) :=
  if c.buffer.length < c.capacity then
    some { c with buffer := c.buffer ++ [x] }
  else if c.recvReady then
    some { c with received := c.received ++ [x], recvReady := false }
  else
    none

/-- SendEvent from the pipeline package: if the channel handle is nil
(none), return false; otherwise attempt a select-with-default send and
return whether the event was sent. Never blocks. -/
def SendEvent (eventC : Option (Chan Event)) (event : Event) : Option (Chan Event) × Bool :=
  match eventC with
  | none => (none, false)
  | some c =>
    let r := chanTrySend c event
    (some r.1, r.2)

/-- PredicateFunc from the flow package: a Go func(I) bool. -/
abbrev PredicateFunc (I : Type) : Type := I → Bool

/-- MapFunc from the flow package: a Go func(I) (O, error), returning both
a value and a nilable error; the caller checks the error component. -/
abbrev MapFunc (I O : Type) : Type := I → O × Option GoError

/-- TransformOut is the denotation of one stage goroutine run to upstream
exhaustion: the items written to the output channel in order, whether the
output channel was closed (the deferred close), and the events emitted on
the event channel in order. -/
structure TransformOut (O : Type) where
  items : List O
  closed : Bool
  events : List Event
deriving DecidableEq, Repr

/-- Buffer flow: only state is the configured output-channel size. -/
structure Buffer (I : Type) where
  size : Int
deriving DecidableEq, Repr

/-- NewBuffer coerces a size less than or equal to 0 to 1. -/
def NewBuffer (I : Type) (size : Int) : Buffer I :=
  if size ≤ 0 then { size := 1 } else { size := size }

/-- The loop body shared by Buffer.Transform and Passthrough.Transform:
for v := range in, out gets v. -/
def forwardLoop {I : Type} : List I → List I
  | [] => []
  | v :: rest => v :: forwardLoop rest

/-- Buffer.Transform forwards every input item to the buffered output
channel and closes it when the input is exhausted; the event channel is
ignored. Channel capacity affects timing only, not the item sequence. -/
def Buffer.Transform {I : Type} (_b : Buffer I) (inp : List I) : TransformOut I :=
  { items := forwardLoop inp, closed := true, events := [] }

/-- Passthrough flow: no state. -/
structure Passthrough (I : Type) where
deriving DecidableEq, Repr

/-- NewPassthrough creates a Passthrough. -/
def NewPassthrough (I : Type) : Passthrough I := {}

/-- Passthrough.Transform forwards every input item to the unbuffered
output channel and closes it when the input is exhausted. -/
def Passthrough.Transform {I : Type} (_pt : Passthrough I) (inp : List I) : TransformOut I :=
  { items := forwardLoop inp, closed := true, events := [] }

/-- Filter flow: holds the predicate installed by NewFilter. -/
structure Filter (I : Type) where
  predicate : PredicateFunc I

/-- NewFilter fails with an error when given a nil predicate. -/
def NewFilter {I : Type} (predicate : Option (PredicateFunc I)) : Except GoError (Filter I) :=
  match predicate with
  | none => Except.error { msg := "predicate func is nil" }
  | some p => Except.ok { predicate := p }

/-- The loop body of Filter.Transform: forward v iff the predicate holds. -/
def filterLoop {I : Type} (p : PredicateFunc I) : List I → List I
  | [] => []
  | v :: rest => if p v then v :: filterLoop p rest else filterLoop p rest

/-- Filter.Transform forwards exactly the items satisfying the predicate,
closing the output on exhaustion; the event channel is ignored. -/
def Filter.Transform {I : Type} (f : Filter I) (inp : List I) : TransformOut I :=
  { items := filterLoop f.predicate inp, closed := true, events := [] }

/-- Map flow: holds the transform installed by NewMap. -/
structure Map (I O : Type) where
  transform : MapFunc I O

/-- NewMap fails with an error when given a nil transform. -/
def NewMap {I O : Type} (transform : Option (MapFunc I O)) : Except GoError (Map I O) :=
  match transform with
  | none => Except.error { msg := "transform func is nil" }
  | some t => Except.ok { transform := t }

/-- The loop body of Map.Transform: on a transform error, send an
ErrorEvent with message "map transform error", the cause, temporary true,
and continue; on success forward the transformed value. -/
def mapLoop {I O : Type} (m : MapFunc I O) : List I → List O × List Event
  | [] => ([], [])
  | v :: rest =>
    let r := m v
    let tl := mapLoop m rest
    match r.2 with
    | some err => (tl.1, NewErrorEvent "map transform error" (some err) true :: tl.2)
    | none => (r.1 :: tl.1, tl.2)

/-- Map.Transform runs the loop in a goroutine and closes the output on
exhaustion. -/
def Map.Transform {I O : Type} (m : Map I O) (inp : List I) : TransformOut O :=
  { items := (mapLoop m.transform inp).1, closed := true,
    events := (mapLoop m.transform inp).2 }

/-- FilterMap flow: holds the predicate and transform from NewFilterMap. -/
structure FilterMap (I O : Type) where
  predicate : PredicateFunc I
  transform : MapFunc I O

/-- NewFilterMap fails with an error when either function is nil, checking
the predicate first. -/
def NewFilterMap {I O : Type} (predicate : Option (PredicateFunc I))
    (transform : Option (MapFunc I O)) : Except GoError (FilterMap I O) :=
  match predicate with
  | none => Except.error { msg := "predicate func is nil" }
  | some p =>
    match transform with
    | none => Except.error { msg := "transform func is nil" }
    | some t => Except.ok { predicate := p, transform := t }

/-- The loop body of FilterMap.Transform: drop silently when the predicate
fails; otherwise transform, sending an ErrorEvent with message
"filtermap error transforming data", the cause, temporary true on failure
and forwarding the value on success. -/
def filterMapLoop {I O : Type} (p : PredicateFunc I) (m : MapFunc I O) :
    List I → List O × List Event
  | [] => ([], [])
  | v :: rest =>
    let tl := filterMapLoop p m rest
    if p v then
      let r := m v
      match r.2 with
      | some err =>
        (tl.1, NewErrorEvent "filtermap error transforming data" (some err) true :: tl.2)
      | none => (r.1 :: tl.1, tl.2)
    else
      tl

/-- FilterMap.Transform runs the loop in a goroutine and closes the output
on exhaustion. -/
def FilterMap.Transform {I O : Type} (f : FilterMap I O) (inp : List I) : TransformOut O :=
  { items := (filterMapLoop f.predicate f.transform inp).1, closed := true,
    events := (filterMapLoop f.predicate f.transform inp).2 }

/-- Channel-level semantics of the Map.Transform goroutine, refining
mapLoop by threading the event channel state. The output channel consumer
is assumed always ready (its items are accumulated in the result); the
event emission is the plain blocking send of the source, so the whole run
is none when that send blocks with no receiver ever arriving. -/
def mapTransformCh {I O : Type} (m : MapFunc I O) :
    List I → Chan Event → Option (List O × Chan Event)
  | [], ec => some ([], ec)
  | v :: rest, ec =>
    let r := m v
    match r.2 with
    | some err =>
      match chanBlockingSend ec (NewErrorEvent "map transform error" (some err) true) with
      | none => none
      | some ec2 => mapTransformCh m rest ec2
    | none =>
      match mapTransformCh m rest ec with
      | none => none
      | some tl => some (r.1 :: tl.1, tl.2)

/-- Channel-level semantics of the FilterMap.Transform goroutine, in the
same style as mapTransformCh. -/
def filterMapTransformCh {I O : Type} (p : PredicateFunc I) (m : MapFunc I O) :
    List I → Chan Event → Option (List O × Chan Event)
  | [], ec => some ([], ec)
  | v :: rest, ec =>
    if p v then
      let r := m v
      match r.2 with
      | some err =>
        match chanBlockingSend ec
            (NewErrorEvent "filtermap error transforming data" (some err) true) with
        | none => none
        | some ec2 => filterMapTransformCh p m rest ec2
      | none =>
        match filterMapTransformCh p m rest ec with
        | none => none
        | some tl => some (r.1 :: tl.1, tl.2)
    else
      filterMapTransformCh p m rest ec

/-- EventCollector state: configuration, the open flag, the identity of
the live event channel when open (channel identities are allocation
indices), and how many event channels have ever been allocated by Collect
(each make of a channel increments it). Callback registration is
orthogonal to the stream lifecycle and is not modelled here. -/
structure EventCollector where
  bufferSize : Int
  workers : Int
  isOpen : Bool
  eventChan : Option Nat
  allocCount : Nat
deriving DecidableEq, Repr

/-- WithWorkers sets the worker count, silently ignoring a non-positive
value. -/
def WithWorkers (workers : Int) (c : EventCollector) : EventCollector :=
  if workers > 0 then { c with workers := workers } else c

/-- WithBufferSize sets the event channel capacity, silently ignoring a
non-positive value. -/
def WithBufferSize (size : Int) (c : EventCollector) : EventCollector :=
  if size > 0 then { c with bufferSize := size } else c

/-- NewEventCollector starts from the defaults (buffer 100, one worker,
closed, no channel ever allocated) and applies the options in order. -/
def NewEventCollector (opts : List (EventCollector → EventCollector)) : EventCollector :=
  opts.foldl (fun c opt => opt c)
    { bufferSize := 100, workers := 1, isOpen := false, eventChan := none, allocCount := 0 }

/-- EventCollector.Collect: when already open, return the existing event
channel unchanged; otherwise allocate a fresh buffered channel, mark the
collector open, record the channel, start the workers, and return it. -/
def EventCollector.Collect (c : EventCollector) : EventCollector × Nat :=
  if c.isOpen then
    (c, c.eventChan.getD 0)
  else
    ({ c with isOpen := true, eventChan := some c.allocCount, allocCount := c.allocCount + 1 },
      c.allocCount)

/-- EventCollector.Close: a no-op when not open; otherwise mark closed,
close the event channel and wait for the workers to drain. -/
def EventCollector.Close (c : EventCollector) : EventCollector :=
  if c.isOpen then { c with isOpen := false } else c

/-- An erroring transform on Unit used as a concrete counterexample input. -/
def mBoom : MapFunc Unit Unit :=
  fun _ => ((), some { msg := "boom" })

/-- A zero-capacity event channel with no waiting receiver: an event
stream that is full and unobserved. -/
def fullChan : Chan Event :=
  { capacity := 0, buffer := [], recvReady := false, received := [] }

/-- An empty event channel of capacity 1: room is available. -/
def readyChan : Chan Event :=
  { capacity := 1, buffer := [], recvReady := false, received := [] }

/-- A sample event for exercising SendEvent. -/
def sampleEvent : Event :=
  NewErrorEvent "boom" (some { msg := "x" }) true

/-- Rewrites an error event to carry the FilterMap message text, leaving
other events alone: the documented message-text difference between a
FilterMap emission and the corresponding Map emission. -/
def remsg : Event → Event
  | Event.error e => Event.error { e with msg := "filtermap error transforming data" }
  | ev => ev

/-
Helper lemmas about the loop bodies, shared by the claim theorems below.
-/

theorem forwardLoop_eq_id {I : Type} (inp : List I) : forwardLoop inp = inp := by
  induction inp with
  | nil => rfl
  | cons v rest ih => simp [forwardLoop, ih]

theorem filterLoop_eq_filter {I : Type} (p : PredicateFunc I) (inp : List I) :
    filterLoop p inp = inp.filter p := by
  induction inp with
  | nil => rfl
  | cons v rest ih =>
    by_cases h : p v <;> simp [filterLoop, h, ih, List.filter_cons]

theorem mapLoop_items {I O : Type} (m : MapFunc I O) (inp : List I) :
    (mapLoop m inp).1 = (inp.filter fun v => ((m v).2).isNone).map fun v => (m v).1 := by
  induction inp with
  | nil => rfl
  | cons v rest ih =>
    cases h : (m v).2 <;> simp [mapLoop, h, ih, List.filter_cons]

theorem mapLoop_events {I O : Type} (m : MapFunc I O) (inp : List I) :
    (mapLoop m inp).2
      = (inp.filter fun v => ((m v).2).isSome).map
          fun v => NewErrorEvent "map transform error" ((m v).2) true := by
  induction inp with
  | nil => rfl
  | cons v rest ih =>
    cases h : (m v).2 <;> simp [mapLoop, h, ih, List.filter_cons]

theorem filterMapLoop_eq_filter_then_map {I O : Type} (p : PredicateFunc I)
    (m : MapFunc I O) (inp : List I) :
    filterMapLoop p m inp
      = ((mapLoop m (filterLoop p inp)).1, ((mapLoop m (filterLoop p inp)).2).map remsg) := by
  induction inp with
  | nil => rfl
  | cons v rest ih =>
    by_cases hp : p v
    · cases h : (m v).2 <;>
        simp [filterMapLoop, filterLoop, mapLoop, hp, h, ih, remsg, NewErrorEvent]
    · simp [filterMapLoop, filterLoop, hp, ih]

/-
Claim theorems.
-/

/-- C1: For every input sequence, Buffer(k) for any k > 0 and Passthrough
each produce an output sequence equal to the input sequence exactly (same
items, same order, same count), and the output channel is closed after
the input is exhausted. -/
theorem buffer_passthrough_identity (I : Type) (k : Int) (_hk : 0 < k) (inp : List I) :
    (NewBuffer I k).Transform inp = { items := inp, closed := true, events := [] }
    ∧ (NewPassthrough I).Transform inp = { items := inp, closed := true, events := [] } := by
  refine ⟨?_, ?_⟩ <;>
    simp [NewBuffer, Buffer.Transform, Passthrough.Transform, forwardLoop_eq_id]

/-- C1 witness: Buffer(2) and Passthrough reproduce the list 1, 2, 3. -/
theorem buffer_passthrough_identity_witness :
    (NewBuffer Nat 2).Transform [1, 2, 3] = { items := [1, 2, 3], closed := true, events := [] }
    ∧ (NewPassthrough Nat).Transform [1, 2, 3]
        = { items := [1, 2, 3], closed := true, events := [] } :=
  buffer_passthrough_identity Nat 2 (by decide) [1, 2, 3]

/-- C2: For every input sequence and transform erroring exactly on the
inputs whose error component is some, Map.Transform outputs exactly the
images of the non-erroring inputs in input order and emits one ErrorEvent
per erroring input, with message "map transform error", cause equal to
the underlying error and temporary true; the transform phase of
FilterMap does the same over the predicate-passing inputs with message
"filtermap error transforming data". A failing item is dropped and the
stage continues. -/
theorem map_filtermap_error_events (I O : Type) (m : MapFunc I O) (p : PredicateFunc I)
    (inp : List I) :
    (Map.Transform { transform := m } inp).items
      = (inp.filter fun v => ((m v).2).isNone).map (fun v => (m v).1)
    ∧ (Map.Transform { transform := m } inp).events
      = (inp.filter fun v => ((m v).2).isSome).map
          (fun v => NewErrorEvent "map transform error" ((m v).2) true)
    ∧ ((Map.Transform { transform := m } inp).events).length
      = (inp.filter fun v => ((m v).2).isSome).length
    ∧ (FilterMap.Transform { predicate := p, transform := m } inp).items
      = ((inp.filter p).filter fun v => ((m v).2).isNone).map (fun v => (m v).1)
    ∧ (FilterMap.Transform { predicate := p, transform := m } inp).events
      = ((inp.filter p).filter fun v => ((m v).2).isSome).map
          (fun v => NewErrorEvent "filtermap error transforming data" ((m v).2) true) := by
  refine ⟨?_, ?_, ?_, ?_, ?_⟩
  · simp [Map.Transform, mapLoop_items]
  · simp [Map.Transform, mapLoop_events]
  · simp [Map.Transform, mapLoop_events]
  · simp [FilterMap.Transform, filterMapLoop_eq_filter_then_map, mapLoop_items,
      filterLoop_eq_filter]
  · simp only [FilterMap.Transform, filterMapLoop_eq_filter_then_map, mapLoop_events,
      filterLoop_eq_filter, List.map_map]
    refine List.map_congr_left ?_
    intro v hv
    simp [remsg, NewErrorEvent]

/-- C3: Filter.Transform outputs an item iff the predicate holds of it,
preserving relative order of survivors, with output count at most input
count, and emits no events. -/
theorem filter_transform_spec (I : Type) (p : PredicateFunc I) (inp : List I) :
    (Filter.Transform { predicate := p } inp).items = inp.filter p
    ∧ (∀ i, i ∈ (Filter.Transform { predicate := p } inp).items ↔ i ∈ inp ∧ p i = true)
    ∧ ((Filter.Transform { predicate := p } inp).items).length ≤ inp.length
    ∧ (Filter.Transform { predicate := p } inp).events = [] := by
  refine ⟨?_, ?_, ?_, rfl⟩
  · simp [Filter.Transform, filterLoop_eq_filter]
  · intro i
    simp [Filter.Transform, filterLoop_eq_filter, List.mem_filter]
  · simp only [Filter.Transform, filterLoop_eq_filter]
    exact List.length_filter_le p inp

/-- C4: FilterMap produces the same output sequence as Filter composed
with Map, and the same sequence of emitted ErrorEvents up to the
documented message text (remsg rewrites the message, leaving cause and
temporary flag untouched). -/
theorem filtermap_refines_filter_then_map (I O : Type) (p : PredicateFunc I)
    (m : MapFunc I O) (inp : List I) :
    (FilterMap.Transform { predicate := p, transform := m } inp).items
      = (Map.Transform { transform := m }
          ((Filter.Transform { predicate := p } inp).items)).items
    ∧ (FilterMap.Transform { predicate := p, transform := m } inp).events
      = ((Filter.Transform { predicate := p } inp).events
          ++ (Map.Transform { transform := m }
              ((Filter.Transform { predicate := p } inp).items)).events).map remsg := by
  constructor
  · simp [FilterMap.Transform, Map.Transform, Filter.Transform,
      filterMapLoop_eq_filter_then_map, filterLoop_eq_filter]
  · simp [FilterMap.Transform, Map.Transform, Filter.Transform,
      filterMapLoop_eq_filter_then_map, filterLoop_eq_filter]

/-- C5: SendEvent returns false without blocking on a nil handle; returns
false without blocking (state unchanged) on a stream with no free
capacity and no waiting receiver; otherwise returns true, having
delivered the event (its count in the channel system grows by one).
SendEvent is a total function, so no case can block. -/
theorem sendEvent_spec (c : Chan Event) (e : Event) :
    SendEvent none e = (none, false)
    ∧ (c.capacity ≤ c.buffer.length → c.recvReady = false →
        SendEvent (some c) e = (some c, false))
    ∧ ((c.buffer.length < c.capacity ∨ c.recvReady = true) →
        ∃ c2, SendEvent (some c) e = (some c2, true)
          ∧ c2.count e = c.count e + 1) := by
  refine ⟨rfl, ?_, ?_⟩
  · intro hfull hrecv
    have h1 : ¬ c.buffer.length < c.capacity := by omega
    simp [SendEvent, chanTrySend, h1, hrecv]
  · intro h
    by_cases h1 : c.buffer.length < c.capacity
    · refine ⟨{ c with buffer := c.buffer ++ [e] }, ?_, ?_⟩
      · simp [SendEvent, chanTrySend, h1]
      · simp [Chan.count, List.count_append]
        omega
    · have hrecv : c.recvReady = true := by
        rcases h with hl | hr
        · exact absurd hl h1
        · exact hr
      refine ⟨{ c with received := c.received ++ [e], recvReady := false }, ?_, ?_⟩
      · simp [SendEvent, chanTrySend, h1, hrecv]
      · simp [Chan.count, List.count_append]
        omega

/-- C5 witness: a full receiver-less stream rejects the event with the
channel unchanged; an empty capacity-1 stream accepts it. -/
theorem sendEvent_spec_witness :
    SendEvent (some fullChan) sampleEvent = (some fullChan, false)
    ∧ ∃ c2, SendEvent (some readyChan) sampleEvent = (some c2, true)
        ∧ c2.count sampleEvent = readyChan.count sampleEvent + 1 :=
  ⟨(sendEvent_spec fullChan sampleEvent).2.1 (by decide) (by rfl),
    (sendEvent_spec readyChan sampleEvent).2.2 (by decide)⟩

/-- C6 counterexample: Map.Transform reports its ErrorEvents with a plain
blocking channel send, not SendEvent: on a full event stream with no
waiting receiver the stage goroutine blocks on the emission (the run
cannot complete), precisely where the non-blocking send primitive would
have returned false without blocking. So it is false that every stage
reports events via the non-blocking primitive and that a full event
stream never blocks a stage. -/
theorem map_emission_blocks_counterexample :
    mapTransformCh mBoom [()] fullChan = none
    ∧ (SendEvent (some fullChan)
        (NewErrorEvent "map transform error" (some { msg := "boom" }) true)).2 = false := by
  constructor <;> rfl

/-- C6 amended: Map and FilterMap report their ErrorEvents with a
blocking channel send on the event stream; when the event stream is full
with no waiting receiver, processing an erroring item blocks the stage
goroutine (the non-blocking primitive SendEvent exists but these stages
do not use it). -/
theorem map_filtermap_blocking_emission (I O : Type) (m : MapFunc I O) (p : PredicateFunc I)
    (v : I) (rest : List I) (ec : Chan Event)
    (hfull : ec.capacity ≤ ec.buffer.length) (hrecv : ec.recvReady = false)
    (herr : ((m v).2).isSome = true) (hp : p v = true) :
    mapTransformCh m (v :: rest) ec = none
    ∧ filterMapTransformCh p m (v :: rest) ec = none := by
  have h1 : ¬ ec.buffer.length < ec.capacity := by omega
  obtain ⟨err, herr2⟩ := Option.isSome_iff_exists.mp herr
  constructor
  · simp [mapTransformCh, herr2, chanBlockingSend, h1, hrecv]
  · simp [filterMapTransformCh, hp, herr2, chanBlockingSend, h1, hrecv]

/-- C6 amended witness: with an always-erroring transform, an
all-passing predicate and a full receiver-less event stream, both stages
block on their first emission. -/
theorem map_filtermap_blocking_emission_witness :
    mapTransformCh mBoom [(), ()] fullChan = none
    ∧ filterMapTransformCh (fun _ => true) mBoom [(), ()] fullChan = none :=
  map_filtermap_blocking_emission Unit Unit mBoom (fun _ => true) () [()] fullChan
    (by decide) (by rfl) (by decide) (by rfl)

/-- C7: Collect on an already-open collector returns the existing event
stream with the collector state unchanged: no second channel is
allocated (allocCount does not move) and no error is possible, so at
most one live event stream exists per collector instance. -/
theorem collect_idempotent (c : EventCollector) (i : Nat)
    (hopen : c.isOpen = true) (hchan : c.eventChan = some i) :
    c.Collect = (c, i) := by
  simp [EventCollector.Collect, hopen, hchan]

/-- C7 witness: starting a default collector and calling Collect a second
time returns the same stream (index 0) with the state unchanged. -/
theorem collect_idempotent_witness :
    ((NewEventCollector []).Collect.1).Collect = ((NewEventCollector []).Collect.1, 0) :=
  collect_idempotent ((NewEventCollector []).Collect.1) 0 (by rfl) (by rfl)

/-- C8: NewFilter(nil), NewMap(nil), NewFilterMap(nil, f) and
NewFilterMap(p, nil) all fail construction with an error, never returning
a silently defaulted stage. -/
theorem constructors_reject_nil (I O : Type) (p : PredicateFunc I) (m : MapFunc I O) :
    NewFilter (I := I) none = Except.error { msg := "predicate func is nil" }
    ∧ NewMap (I := I) (O := O) none = Except.error { msg := "transform func is nil" }
    ∧ NewFilterMap (I := I) (O := O) none (some m)
        = Except.error { msg := "predicate func is nil" }
    ∧ NewFilterMap (O := O) (some p) none = Except.error { msg := "transform func is nil" } :=
  ⟨rfl, rfl, rfl, rfl⟩

/-- C9: the log-level ordinals satisfy Error < Warn < Info < Debug, with
consecutive levels differing by 1 except for the reserved slot between
Warn and Info, which is skipped: Info = Warn + 2. -/
theorem log_level_gap :
    LevelError < LevelWarn ∧ LevelWarn < LevelInfo ∧ LevelInfo < LevelDebug
    ∧ LevelWarn = LevelError + 1 ∧ LevelInfo = LevelWarn + 2 ∧ LevelDebug = LevelInfo + 1 := by
  decide

/-- C10: ErrorEvent rendering maps the cause through msg ++ ": " ++
cause, so String and Error (which delegates to String) are defined
exactly when the wrapped cause is non-nil; NewErrorEvent accepts a nil
cause, the Logger sink constructs exactly such an event, and rendering it
dereferences the nil error (the none result models the panic). -/
theorem error_event_nil_cause_rendering (e : ErrorEvent) :
    ErrorEvent.string e = Option.map (fun g => e.msg ++ ": " ++ g.msg) e.err
    ∧ ErrorEvent.goError e = ErrorEvent.string e
    ∧ ((ErrorEvent.string e).isSome ↔ e.err.isSome)
    ∧ ErrorEvent.string loggerEmptyErrorEvent = none
    ∧ NewErrorEvent "formatted data is empty" none true = Event.error loggerEmptyErrorEvent := by
  refine ⟨?_, rfl, ?_, rfl, rfl⟩
  · cases h : e.err <;> simp [ErrorEvent.string, h]
  · cases h : e.err <;> simp [ErrorEvent.string, h]

end Krapht
